import Mathlib

/-
Shallow embedding of the transport/authorization layer of the
admitad-python-api client (`pyadmitad/transport.py`), together with proofs
about its documented behaviour.  Pure Python functions become Lean
functions; the mutable builder objects become explicit state passing
(every setter returns the new object state plus the optionally raised
exception); the HTTP stack (`requests` + `simplejson`) is modelled as an
oracle mapping the fully prepared request to an outcome.
-/

set_option autoImplicit false

namespace Pyadmitad

/-- A parsed JSON value, the result of `response.json()`. -/
inductive JVal where
  | null
  | bool (b : Bool)
  | num (n : Int)
  | str (s : String)
  | arr (elems : List JVal)
  | obj (fields : List (String × JVal))
deriving Repr

/-- Exception kinds raised by the transport layer.  `apiError` embeds
`ApiException`, `httpError` embeds `HttpException(status_code, content, err)`,
`connectionError` embeds `ConnectionException` and `decodeError` embeds
`JsonException` — the four classes of `pyadmitad/exceptions.py`, modelled from
the spec's error taxonomy (section 7) since that file is not under `src/`.
`attributeError` is Python's builtin `AttributeError`, a kind distinct from all
of the library's exception classes; `keyError` and `valueError` are the builtin
exceptions that Python `%`-formatting can raise. -/
inductive PyExc where
  | apiError (msg : String)
  | httpError (status : Nat) (content : JVal) (cause : String)
  | connectionError (cause : String)
  | decodeError (cause : String)
  | attributeError (msg : String)
  | keyError (key : String)
  | valueError (msg : String)
deriving Repr

/-- Form data / query parameters: a Python dict of string keys whose values are
strings or `None` (insertion order kept, as in the source's literal dicts). -/
abbrev FormData := List (String × Option String)

/-- HTTP headers: a Python dict from header names to string values. -/
abbrev Headers := List (String × String)

/-- `d.get(k)` on a Python dict built from an association list: the binding
added last wins. -/
def dictGet (pairs : List (String × String)) (k : String) : Option String :=
  match pairs with
  | [] => none
  | (k2, v) :: rest =>
    match dictGet rest k with
    | some v2 => some v2
    | none => if k2 = k then some v else none

/-- `k in response` for a parsed JSON response: key membership when the
response is a JSON object.  (Python's `in` on non-mapping values does element
or substring search or raises `TypeError`; the token responses inspected by
the source are objects, and no other shape is examined.) -/
def jmem (k : String) (v : JVal) : Bool :=
  match v with
  | .obj fields => fields.any (fun p => decide (p.1 = k))
  | _ => false

/-- Python `str(x)` for an optional string, as applied by `urllib.urlencode`
to dict values: `None` prints as `"None"`. -/
def pyStr (v : Option String) : String :=
  match v with
  | some s => s
  | none => "None"

/-- `x or default` on an optional string: `None` and `""` are falsy. -/
def pyOrStr (v : Option String) (d : String) : String :=
  match v with
  | some s => if s = "" then d else s
  | none => d

/-! ### Python `%`-formatting with the mapping `{'language': v}`

`prepare_api_url` evaluates `url % {'language': language or DEFAULT_LANGUAGE}`.
The formatter is embedded as a character-level state machine: literal
characters are copied, `%%` emits `%`, `%(language)s` splices the value, any
other directive raises (`KeyError` for an unknown mapping key, `ValueError`
for an unsupported or incomplete directive — Python's `%s`-with-a-dict corner
case, which no call site can reach, is mapped to `ValueError` as well). -/

/-- State of the `%`-format scanner: plain text, just after `%`, inside a
`%(key` group, or just after `%(key)` expecting the conversion character. -/
inductive FmtMode where
  | norm
  | pct
  | key (acc : List Char)
  | conv (key : List Char)

/-- The `%`-format scanner; `v` is the value bound to the key `language`. -/
def pyFormatM (v : List Char) : FmtMode → List Char → Except PyExc (List Char)
  | .norm, [] => .ok []
  | .pct, [] => .error (.valueError "incomplete format")
  | .key _, [] => .error (.valueError "incomplete format key")
  | .conv _, [] => .error (.valueError "incomplete format")
  | .norm, c :: rest =>
    if c = '%' then pyFormatM v .pct rest
    else (pyFormatM v .norm rest).map (fun t => c :: t)
  | .pct, c :: rest =>
    if c = '%' then (pyFormatM v .norm rest).map (fun t => '%' :: t)
    else if c = '(' then pyFormatM v (.key []) rest
    else .error (.valueError "unsupported format character")
  | .key acc, c :: rest =>
    if c = ')' then pyFormatM v (.conv acc.reverse) rest
    else pyFormatM v (.key (c :: acc)) rest
  | .conv key, c :: rest =>
    if c = 's' then
      if key = "language".toList then (pyFormatM v .norm rest).map (fun t => v ++ t)
      else .error (.keyError (String.mk key))
    else .error (.valueError "unsupported format character")

/-- `template % {'language': v}`. -/
def pyFormat (v : List Char) (template : List Char) : Except PyExc (List Char) :=
  pyFormatM v .norm template

/-- Modelled from the spec: `pyadmitad/constants.py` is not under `src/`.  The
spec fixes the supported language set `{ru, en, de, pl}` and says the default
language is a fixed process-wide constant; its concrete value is not pinned by
the spec, `"ru"` is used as the representative value. -/
def DEFAULT_LANGUAGE : String := "ru"

/-- Modelled from the spec: the closed set of supported languages. -/
def SUPPORTED_LANGUAGES : List String := ["ru", "en", "de", "pl"]

/-- Modelled from the spec: the fixed default request timeout constant from
`pyadmitad/constants.py` (value not pinned by the spec). -/
def DEFAULT_REQUEST_TIMEOUT : Nat := 10

/-- Modelled from the spec: the language-templated token endpoint URL
(`%(language)s` placeholder); the exact literal is not under `src/`. -/
def TOKEN_URL : String := "https://api.admitad.com/%(language)s/token/"

/-- Modelled from the spec: the language-templated authorize endpoint URL
(`%(language)s` placeholder); the exact literal is not under `src/`. -/
def AUTHORIZE_URL : String := "https://api.admitad.com/%(language)s/authorize/"

/-- `prepare_api_url(url, language)`:
`return url % {'language': language or DEFAULT_LANGUAGE}`.
`language = none` models passing `None`; call sites that rely on the Python
default argument pass `some DEFAULT_LANGUAGE`. -/
def prepare_api_url (url : String) (language : Option String) : Except PyExc String :=
  (pyFormat (pyOrStr language DEFAULT_LANGUAGE).toList url.toList).map String.mk

/-! ### Well-formed URL templates

A template made of plain characters and `%(language)s` placeholders, the shape
of every URL template in the repository.  `renderTmpl` produces the template
text, `substTmpl` the text with each placeholder replaced by a value. -/

/-- One template element: a literal character or the `%(language)s` placeholder. -/
inductive Seg where
  | lit (c : Char)
  | lang
deriving Repr, DecidableEq

/-- The template text of a segment list. -/
def renderTmpl : List Seg → List Char
  | [] => []
  | .lit c :: rest => c :: renderTmpl rest
  | .lang :: rest =>
    '%' :: '(' :: 'l' :: 'a' :: 'n' :: 'g' :: 'u' :: 'a' :: 'g' :: 'e' :: ')' :: 's' :: renderTmpl rest

/-- The template text with every placeholder replaced by `v`. -/
def substTmpl (v : List Char) : List Seg → List Char
  | [] => []
  | .lit c :: rest => c :: substTmpl v rest
  | .lang :: rest => v ++ substTmpl v rest

/-- A template is well formed when no literal character is `%`. -/
def goodTmpl (segs : List Seg) : Bool :=
  segs.all (fun s => match s with | .lit c => decide (c ≠ '%') | .lang => true)

theorem pyFormatM_norm_cons (v : List Char) (c : Char) (l : List Char) (h : c ≠ '%') :
    pyFormatM v .norm (c :: l) = (pyFormatM v .norm l).map (fun t => c :: t) := by
  simp [pyFormatM, h]

theorem pyFormatM_lang (v l : List Char) :
    pyFormatM v .norm
      ('%' :: '(' :: 'l' :: 'a' :: 'n' :: 'g' :: 'u' :: 'a' :: 'g' :: 'e' :: ')' :: 's' :: l)
      = (pyFormatM v .norm l).map (fun t => v ++ t) := by
  simp [pyFormatM]

/-- Formatting a well-formed template substitutes exactly the value at each
placeholder and copies everything else. -/
theorem pyFormat_render (v : List Char) :
    ∀ segs : List Seg, goodTmpl segs = true →
      pyFormat v (renderTmpl segs) = .ok (substTmpl v segs)
  | [], _ => by simp [pyFormat, renderTmpl, substTmpl, pyFormatM]
  | .lit c :: rest, h => by
    have hc : c ≠ '%' := by
      have := h
      simp [goodTmpl] at this
      exact this.1
    have hrest : goodTmpl rest = true := by
      have := h
      simp [goodTmpl] at this
      simpa [goodTmpl] using this.2
    have ih := pyFormat_render v rest hrest
    simp only [pyFormat] at ih
    simp [pyFormat, renderTmpl, substTmpl, pyFormatM_norm_cons v c _ hc, ih, Except.map]
  | .lang :: rest, h => by
    have hrest : goodTmpl rest = true := by
      have := h
      simp [goodTmpl] at this
      simpa [goodTmpl] using this
    have ih := pyFormat_render v rest hrest
    simp only [pyFormat] at ih
    simp [pyFormat, renderTmpl, substTmpl, pyFormatM_lang, ih, Except.map]

/-- `prepare_api_url` on a rendered well-formed template. -/
theorem prepare_api_url_render (segs : List Seg) (h : goodTmpl segs = true)
    (language : Option String) :
    prepare_api_url (String.mk (renderTmpl segs)) language
      = .ok (String.mk (substTmpl (pyOrStr language DEFAULT_LANGUAGE).toList segs)) := by
  simp [prepare_api_url, pyFormat_render _ _ h, Except.map]

/-! ### URL query parsing (`urlparse.urlparse(url).query`, `urlparse.parse_qsl`)

Python 2 semantics: the fragment is split off at the first `#`, the query is
everything after the first `?` of what remains; `parse_qsl` (with its default
`keep_blank_values=False`, `strict_parsing=False`) splits on `&` and `;`,
skips fields without `=` and fields with an empty value, replaces `+` by a
space and percent-decodes names and values. -/

/-- Split at the first occurrence of `sep`: `some (before, after)`, or `none`
when `sep` does not occur. -/
def splitFirstChar (sep : Char) : List Char → Option (List Char × List Char)
  | [] => none
  | x :: rest =>
    if x = sep then some ([], rest)
    else (splitFirstChar sep rest).map (fun p => (x :: p.1, p.2))

/-- `s.split(sep)`. -/
def splitOnChar (sep : Char) : List Char → List (List Char)
  | [] => [[]]
  | x :: rest =>
    match splitOnChar sep rest with
    | [] => [[]]
    | h :: t => if x = sep then [] :: h :: t else (x :: h) :: t

/-- The value of a hex digit, `none` for other characters. -/
def hexDigit? (c : Char) : Option Nat :=
  if '0' ≤ c ∧ c ≤ '9' then some (c.toNat - '0'.toNat)
  else if 'a' ≤ c ∧ c ≤ 'f' then some (c.toNat - 'a'.toNat + 10)
  else if 'A' ≤ c ∧ c ≤ 'F' then some (c.toNat - 'A'.toNat + 10)
  else none

/-- `urllib.unquote`: decode `%XX` escapes, leaving malformed escapes as-is. -/
def unquote : List Char → List Char
  | [] => []
  | '%' :: a :: b :: rest =>
    match hexDigit? a, hexDigit? b with
    | some ha, some hb => Char.ofNat (16 * ha + hb) :: unquote rest
    | _, _ => '%' :: unquote (a :: b :: rest)
  | '%' :: rest => '%' :: unquote rest
  | c :: rest => c :: unquote rest

/-- `s.replace('+', ' ')`, applied by `parse_qsl` before unquoting. -/
def plusToSpace (l : List Char) : List Char :=
  l.map (fun c => if c = '+' then ' ' else c)

/-- `urlparse.parse_qsl(qs)` with default options. -/
def parse_qsl (qs : List Char) : List (String × String) :=
  let pairs := (splitOnChar '&' qs).flatMap (splitOnChar ';')
  pairs.filterMap (fun nv =>
    match splitFirstChar '=' nv with
    | none => none
    | some (name, value) =>
      if value = [] then none
      else
        some (String.mk (unquote (plusToSpace name)),
              String.mk (unquote (plusToSpace value))))

/-- `urlparse.urlparse(url).query`: drop the fragment (first `#` on), then
take everything after the first `?`. -/
def url_query (url : String) : List Char :=
  let noFrag :=
    match splitFirstChar '#' url.toList with
    | some p => p.1
    | none => url.toList
  match splitFirstChar '?' noFrag with
  | none => []
  | some p => p.2

/-! ### `base64.b64encode` and URL encoding helpers -/

/-- The standard base64 alphabet. -/
def B64_ALPHABET : String :=
  "ABCDEFGHIJKLMNOPQRSTUVWXYZabcdefghijklmnopqrstuvwxyz0123456789+/"

/-- The base64 character for a 6-bit value. -/
def b64char (n : Nat) : Char := B64_ALPHABET.toList.getD n 'A'

/-- Encode a byte list in groups of three, padding with `=`. -/
def b64groups : List Nat → List Char
  | b1 :: b2 :: b3 :: rest =>
    b64char (b1 / 4) :: b64char (b1 % 4 * 16 + b2 / 16) ::
      b64char (b2 % 16 * 4 + b3 / 64) :: b64char (b3 % 64) :: b64groups rest
  | [b1, b2] =>
    [b64char (b1 / 4), b64char (b1 % 4 * 16 + b2 / 16), b64char (b2 % 16 * 4), '=']
  | [b1] => [b64char (b1 / 4), b64char (b1 % 4 * 16), '=', '=']
  | [] => []

/-- `base64.b64encode` on a Python 2 byte string. -/
def b64encode (s : String) : String :=
  String.mk (b64groups (s.toList.map (fun c => c.toNat % 256)))

/-- `urllib.quote_plus`: keep letters, digits and `_.-`, encode a space as
`+` and every other byte as `%XX` (uppercase hex). -/
def quote_plus (s : String) : String :=
  String.mk (s.toList.flatMap (fun c =>
    if c.isAlphanum ∨ c = '_' ∨ c = '.' ∨ c = '-' then [c]
    else if c = ' ' then ['+']
    else
      let n := c.toNat % 256
      ['%', "0123456789ABCDEF".toList.getD (n / 16) '0',
        "0123456789ABCDEF".toList.getD (n % 16) '0']))

/-- `urllib.urlencode` on an association list (Python applies `str` to each
value, so `None` becomes `"None"`). -/
def urlencode (params : List (String × Option String)) : String :=
  String.intercalate "&"
    (params.map (fun p => quote_plus p.1 ++ "=" ++ quote_plus (pyStr p.2)))

/-! ### The HTTP executor (`prepare_request_data`, `api_request`)

The `requests` library is modelled as an oracle (`World`) from the fully
prepared request to an outcome: either a response carrying a status code and
a body (already classified as valid or invalid JSON — `simplejson` is
external), or a network-level failure (`requests.RequestException`; the
executor's `except` clauses catch `requests.HTTPError` first, but the only
`HTTPError` reachable from `requests.request` itself is none, so network
failures map to `ConnectionException`). -/

/-- The keyword arguments built by `prepare_request_data`. -/
structure RequestKwargs where
  timeout : Nat
  data : Option FormData
  params : Option FormData
  headers : Headers
  allow_redirects : Bool
  verify : Bool
deriving Repr, DecidableEq

/-- A fully prepared HTTP request, as handed to `requests.request`. -/
structure Request where
  method : String
  url : String
  kwargs : RequestKwargs
deriving Repr, DecidableEq

/-- A response body: valid JSON (with its parse), or text that
`simplejson` rejects. -/
inductive Body where
  | json (v : JVal)
  | invalid (raw : String)

/-- The outcome of handing a request to `requests.request`. -/
inductive HttpOutcome where
  | response (status : Nat) (body : Body)
  | networkError (err : String)

/-- The external HTTP stack. -/
abbrev World := Request → HttpOutcome

/-- `prepare_request_data(data, headers, method, timeout, ssl_verify)`. -/
def prepare_request_data (data : Option FormData) (headers : Option Headers)
    (method : String) (timeout : Option Nat) (ssl_verify : Bool) : RequestKwargs :=
  { timeout := timeout.getD DEFAULT_REQUEST_TIMEOUT
    data := if method = "POST" then data else none
    params := if method = "GET" then data else none
    headers := headers.getD []
    allow_redirects := true
    verify := ssl_verify }

/-- `api_request(url, data, headers, method, timeout, ssl_verify)`.  Returns
the request it hands to `requests.request` together with the result.  The
body is parsed (`response.json()`) before `response.raise_for_status()` is
called, so an unparsable body raises `JsonException` even on a failure
status; `raise_for_status` raises exactly for status codes 400–599. -/
def api_request (world : World) (url : String) (data : Option FormData)
    (headers : Option Headers) (method : String) (timeout : Option Nat)
    (ssl_verify : Bool) : Request × Except PyExc JVal :=
  let kwargs := prepare_request_data data headers method timeout ssl_verify
  let req : Request := { method := method, url := url, kwargs := kwargs }
  (req,
    match world req with
    | .networkError err => .error (.connectionError err)
    | .response status body =>
      match body with
      | .invalid raw => .error (.decodeError raw)
      | .json content =>
        if 400 ≤ status ∧ status < 600 then
          .error (.httpError status content ("HTTP status " ++ toString status))
        else .ok content)

/-- `api_post_request(url, **kwargs)` as invoked by the OAuth code: method
forced to POST, timeout and TLS verification left at their defaults. -/
def api_post_request (world : World) (url : String) (data : Option FormData)
    (headers : Option Headers) : Request × Except PyExc JVal :=
  api_request world url data headers "POST" none false

/-- `build_authorization_headers(access_token)`. -/
def build_authorization_headers (access_token : String) : Headers :=
  [("Authorization", "Bearer " ++ access_token)]

/-- `build_headers(access_token, user_agent)`; `user_agent` is added only
when truthy. -/
def build_headers (access_token : String) (user_agent : Option String) : Headers :=
  let headers := build_authorization_headers access_token ++ [("Connection", "Keep-Alive")]
  match user_agent with
  | some ua => if ua = "" then headers else headers ++ [("User-Agent", ua)]
  | none => headers

/-! ### OAuth2 grant functions

The `data` dict argument of the source functions is flattened into its
required fields (the `KeyError` raised on a missing key is not modelled;
`language` keeps its `data.get('language', DEFAULT_LANGUAGE)` optionality).
Each function returns the list of requests it issued plus the result. -/

/-- `oauth_password_authorization(data)`. -/
def oauth_password_authorization (world : World) (client_id client_secret
    username password scopes : String) (language : Option String) :
    List Request × Except PyExc JVal :=
  let lang := match language with | some l => l | none => DEFAULT_LANGUAGE
  let params : FormData :=
    [("grant_type", some "password"), ("client_id", some client_id),
      ("username", some username), ("password", some password),
      ("scope", some scopes)]
  let credentials := b64encode (client_id ++ ":" ++ client_secret)
  let headers : Headers :=
    [("Content-Type", "application/x-www-form-urlencoded"),
      ("Authorization", "Basic " ++ credentials)]
  match prepare_api_url TOKEN_URL (some lang) with
  | .error e => ([], .error e)
  | .ok u =>
    let pr := api_post_request world u (some params) (some headers)
    ([pr.1], pr.2)

/-- `oauth_client_authorization(data)`. -/
def oauth_client_authorization (world : World) (client_id client_secret
    scopes : String) (language : Option String) :
    List Request × Except PyExc JVal :=
  let lang := match language with | some l => l | none => DEFAULT_LANGUAGE
  let params : FormData :=
    [("grant_type", some "client_credentials"), ("client_id", some client_id),
      ("scope", some scopes)]
  let credentials := b64encode (client_id ++ ":" ++ client_secret)
  let headers : Headers :=
    [("Content-Type", "application/x-www-form-urlencoded"),
      ("Authorization", "Basic " ++ credentials)]
  match prepare_api_url TOKEN_URL (some lang) with
  | .error e => ([], .error e)
  | .ok u =>
    let pr := api_post_request world u (some params) (some headers)
    ([pr.1], pr.2)

/-! ### The authorization-code flow object (`OAuthServerAuthorisation`)

The mutable instance becomes an explicit record.  `get_authorize_url`'s call
to `uuid.uuid4().get_hex()` is nondeterministic, so the freshly generated hex
string is an explicit parameter.  `get_access_token` never assigns to `self`,
so its embedding returns the instance unchanged alongside the list of issued
token-endpoint requests and the result. -/

/-- The state of an `OAuthServerAuthorisation` instance. -/
structure OAuthServerAuthorisation where
  client_id : String
  client_secret : String
  scopes : String
  redirect_uri : Option String
  language : String
  state : Option String
deriving Repr, DecidableEq

/-- `OAuthServerAuthorisation.__init__(data)`: `redirect_uri` defaults to
`None`, `language` to `DEFAULT_LANGUAGE`, and `state` starts as `None`. -/
def OAuthServerAuthorisation.init (client_id client_secret scopes : String)
    (redirect_uri : Option String) (language : Option String) :
    OAuthServerAuthorisation :=
  { client_id := client_id
    client_secret := client_secret
    scopes := scopes
    redirect_uri := redirect_uri
    language := match language with | some l => l | none => DEFAULT_LANGUAGE
    state := none }

/-- `get_authorize_url(self)`: stores the fresh state token, then returns the
language-qualified authorize endpoint with the urlencoded query attached. -/
def OAuthServerAuthorisation.get_authorize_url (o : OAuthServerAuthorisation)
    (fresh_state : String) : OAuthServerAuthorisation × Except PyExc String :=
  let o1 := { o with state := some fresh_state }
  let params : List (String × Option String) :=
    [("client_id", some o.client_id), ("response_type", some "code"),
      ("state", some fresh_state), ("scope", some o.scopes),
      ("redirect_uri", o.redirect_uri)]
  match prepare_api_url AUTHORIZE_URL (some o.language) with
  | .error e => (o1, .error e)
  | .ok u => (o1, .ok (u ++ "?" ++ urlencode params))

/-- The body of the token request issued by `get_access_token`. -/
def token_request_params (o : OAuthServerAuthorisation) (code : String) : FormData :=
  [("grant_type", some "authorization_code"), ("client_id", some o.client_id),
    ("client_secret", some o.client_secret), ("code", some code),
    ("redirect_uri", o.redirect_uri)]

/-- The headers of the token request issued by `get_access_token` (no
`Authorization` header, unlike the password and client-credentials grants). -/
def token_request_headers : Headers :=
  [("Content-Type", "application/x-www-form-urlencoded")]

/-- `get_access_token(self, url)`: parse the redirect URL's query string into
a dict, check the anti-CSRF `state`, the provider `error` and the `code`
parameters (each failure raises `ApiException` before any request is made),
then POST the authorization-code exchange and require `access_token` in the
parsed response. -/
def OAuthServerAuthorisation.get_access_token (o : OAuthServerAuthorisation)
    (url : String) (world : World) :
    OAuthServerAuthorisation × List Request × Except PyExc JVal :=
  let url_params := parse_qsl (url_query url)
  let state := dictGet url_params "state"
  if state = none ∨ state = some "" ∨ state ≠ o.state then
    (o, [], .error (.apiError "Wrong or absent the state parameter."))
  else
    match dictGet url_params "error" with
    | some e => (o, [], .error (.apiError e))
    | none =>
      match dictGet url_params "code" with
      | none => (o, [], .error (.apiError "Invalid response. The authorization code is absent."))
      | some code =>
        match prepare_api_url TOKEN_URL (some o.language) with
        | .error e => (o, [], .error e)
        | .ok token_url =>
          let pr := api_post_request world token_url
            (some (token_request_params o code)) (some token_request_headers)
          (o, [pr.1],
            match pr.2 with
            | .error e => .error e
            | .ok response =>
              if jmem "access_token" response then .ok response
              else .error (.apiError "Invalid response. The access_token is absent."))

/-! ### The fluent request builder (`HttpTransport`)

Setters mutate the instance, so each is embedded as
`state → (new state, optionally raised exception)`: on a raise the first
component is the state at the moment of the raise (Python's `raise` performs
no rollback).  `__call__` additionally returns the list of requests issued. -/

/-- The state of an `HttpTransport` instance. -/
structure HttpTransport where
  _headers : Headers
  _method : String
  _supported_methods : List String
  _supported_languages : List String
  _data : Option FormData
  _url : Option String
  _language : Option String
deriving Repr, DecidableEq

/-- `HttpTransport.__init__(access_token, method, user_agent)`. -/
def HttpTransport.init (access_token : String) (method : Option String)
    (user_agent : Option String) : HttpTransport :=
  { _headers := build_headers access_token user_agent
    _method := pyOrStr method "GET"
    _supported_methods := ["GET", "POST"]
    _supported_languages := ["ru", "en", "de", "pl"]
    _data := none
    _url := none
    _language := none }

/-- `set_language(self, language)`: store a supported language, raise the
builtin `AttributeError` otherwise. -/
def HttpTransport.set_language (t : HttpTransport) (language : String) :
    HttpTransport × Option PyExc :=
  if language ∈ t._supported_languages then
    ({ t with _language := some language }, none)
  else
    (t, some (.attributeError ("This language \"" ++ language ++ "\" is not supported")))

/-- `set_method(self, method)`: store a supported method, raise the builtin
`AttributeError` otherwise. -/
def HttpTransport.set_method (t : HttpTransport) (method : String) :
    HttpTransport × Option PyExc :=
  if method ∈ t._supported_methods then
    ({ t with _method := method }, none)
  else
    (t, some (.attributeError ("This http method \"" ++ method ++ "\" is not supported")))

/-- `set_data(self, data)`. -/
def HttpTransport.set_data (t : HttpTransport) (data : Option FormData) :
    HttpTransport :=
  { t with _data := data }

/-- `set_url(self, url, language)`: when `language` is truthy it is first
validated and stored via `set_language`; the stored URL is always the
template with `language or DEFAULT_LANGUAGE` substituted — the instance's
previously stored `_language` is never consulted. -/
def HttpTransport.set_url (t : HttpTransport) (url : String)
    (language : Option String) : HttpTransport × Option PyExc :=
  let step1 : HttpTransport × Option PyExc :=
    match language with
    | some l => if l = "" then (t, none) else t.set_language l
    | none => (t, none)
  match step1 with
  | (t1, some e) => (t1, some e)
  | (t1, none) =>
    match prepare_api_url url language with
    | .error e => (t1, some e)
    | .ok u => ({ t1 with _url := some u }, none)

/-- `_handle_response(self, response)`. -/
def HttpTransport._handle_response (_t : HttpTransport) (response : JVal) : JVal :=
  response

/-- The `**kwargs` option bag accepted by `HttpTransport.__call__`; only the
keys the method itself reads are modelled. -/
structure CallArgs where
  language : Option String
  url : Option String
  handler : Option (JVal → JVal)

/-- `HttpTransport.__call__(self, **kwargs)`: apply the bag's `language` and
`url` through the setters, require a truthy stored URL (else raise the
builtin `AttributeError`), execute the request, and pass the response through
the caller's `handler` when given, else through `_handle_response`. -/
def HttpTransport.call (t : HttpTransport) (args : CallArgs) (world : World) :
    HttpTransport × List Request × Except PyExc JVal :=
  let step1 : HttpTransport × Option PyExc :=
    match args.language with
    | some l => t.set_language l
    | none => (t, none)
  match step1 with
  | (t1, some e) => (t1, [], .error e)
  | (t1, none) =>
    let step2 : HttpTransport × Option PyExc :=
      match args.url with
      | some u => t1.set_url u t1._language
      | none => (t1, none)
    match step2 with
    | (t2, some e) => (t2, [], .error e)
    | (t2, none) =>
      match t2._url with
      | none => (t2, [], .error (.attributeError "Absent url parameter. Use set_url method"))
      | some u =>
        if u = "" then
          (t2, [], .error (.attributeError "Absent url parameter. Use set_url method"))
        else
          let pr := api_request world u t2._data (some t2._headers) t2._method none false
          (t2, [pr.1],
            match pr.2 with
            | .error e => .error e
            | .ok response =>
              .ok (match args.handler with
                | some h => h response
                | none => t2._handle_response response))

/-! ### Error-kind discriminators used by the claims -/

/-- Whether an optionally raised exception is `ApiException`. -/
def isApiErrorOpt : Option PyExc → Bool
  | some (.apiError _) => true
  | _ => false

/-- Whether a computation result is a raised `ApiException`. -/
def isApiErrorResult : Except PyExc JVal → Bool
  | .error (.apiError _) => true
  | _ => false

/-! ### Claims about the setters and the call operation (C2, C3, C4) -/

/-- Claim C2, counterexample to the claim as stated: `set_method("PUT")` on a
freshly constructed transport fails, but with the builtin `AttributeError`,
not with `ApiError`. -/
theorem claim_C2_counterexample :
    ((HttpTransport.init "token" none none).set_method "PUT").2
        = some (PyExc.attributeError "This http method \"PUT\" is not supported")
      ∧ isApiErrorOpt ((HttpTransport.init "token" none none).set_method "PUT").2 = false :=
  ⟨rfl, rfl⟩

/-- Claim C2 (amended): for every string `m` not in `{GET, POST}`,
`set_method(m)` fails with the builtin `AttributeError` (not `ApiError`) and
leaves the previously stored method unchanged (the returned state is the
input state); for `m` in `{GET, POST}` it stores `m` and returns the
builder. -/
theorem claim_C2 (t : HttpTransport) (m : String)
    (hsup : t._supported_methods = ["GET", "POST"]) :
    (m ∉ (["GET", "POST"] : List String) →
      t.set_method m
        = (t, some (PyExc.attributeError
            ("This http method \"" ++ m ++ "\" is not supported"))))
    ∧ (m ∈ (["GET", "POST"] : List String) →
      t.set_method m = ({ t with _method := m }, none)) := by
  constructor
  · intro h
    simp [HttpTransport.set_method, hsup, h]
  · intro h
    simp [HttpTransport.set_method, hsup, h]

theorem claim_C2_witness :
    (HttpTransport.init "tkn" none none)._supported_methods = ["GET", "POST"]
      ∧ "DELETE" ∉ (["GET", "POST"] : List String)
      ∧ (HttpTransport.init "tkn" none none).set_method "DELETE"
          = (HttpTransport.init "tkn" none none,
              some (PyExc.attributeError
                ("This http method \"" ++ "DELETE" ++ "\" is not supported"))) :=
  ⟨rfl, by decide,
    (claim_C2 (HttpTransport.init "tkn" none none) "DELETE" rfl).1 (by decide)⟩

/-- Claim C3, counterexample to the claim as stated: `set_language("fr")`
fails, but with the builtin `AttributeError`, not with `ApiError`. -/
theorem claim_C3_counterexample :
    ((HttpTransport.init "token" none none).set_language "fr").2
        = some (PyExc.attributeError "This language \"fr\" is not supported")
      ∧ isApiErrorOpt ((HttpTransport.init "token" none none).set_language "fr").2 = false :=
  ⟨rfl, rfl⟩

/-- Claim C3 (amended): for every string `L` not in `{ru, en, de, pl}`,
`set_language(L)` fails with the builtin `AttributeError` (not `ApiError`)
and leaves the stored language unchanged; for `L` in that set it stores `L`
and returns the builder. -/
theorem claim_C3 (t : HttpTransport) (L : String)
    (hsup : t._supported_languages = ["ru", "en", "de", "pl"]) :
    (L ∉ (["ru", "en", "de", "pl"] : List String) →
      t.set_language L
        = (t, some (PyExc.attributeError
            ("This language \"" ++ L ++ "\" is not supported"))))
    ∧ (L ∈ (["ru", "en", "de", "pl"] : List String) →
      t.set_language L = ({ t with _language := some L }, none)) := by
  constructor
  · intro h
    simp [HttpTransport.set_language, hsup, h]
  · intro h
    simp [HttpTransport.set_language, hsup, h]

theorem claim_C3_witness :
    (HttpTransport.init "tkn" none none)._supported_languages = ["ru", "en", "de", "pl"]
      ∧ "fr" ∉ (["ru", "en", "de", "pl"] : List String)
      ∧ (HttpTransport.init "tkn" none none).set_language "fr"
          = (HttpTransport.init "tkn" none none,
              some (PyExc.attributeError
                ("This language \"" ++ "fr" ++ "\" is not supported"))) :=
  ⟨rfl, by decide,
    (claim_C3 (HttpTransport.init "tkn" none none) "fr" rfl).1 (by decide)⟩

/-- Claim C4, counterexample to the claim as stated: invoking a transport
with no stored URL and an empty option bag fails, but with the builtin
`AttributeError`, not with `ApiError` (no HTTP request is performed). -/
theorem claim_C4_counterexample :
    HttpTransport.call (HttpTransport.init "tkn" none none) ⟨none, none, none⟩
        (fun _ => HttpOutcome.networkError "unused")
      = (HttpTransport.init "tkn" none none, [],
          Except.error (PyExc.attributeError "Absent url parameter. Use set_url method"))
    ∧ isApiErrorResult
        (HttpTransport.call (HttpTransport.init "tkn" none none) ⟨none, none, none⟩
          (fun _ => HttpOutcome.networkError "unused")).2.2 = false :=
  ⟨rfl, rfl⟩

/-- Claim C4 (amended): invoking an `HttpTransport` when no URL has been
stored and the option bag supplies no url fails with the builtin
`AttributeError` (not `ApiError`) and performs no HTTP request. -/
theorem claim_C4 (t : HttpTransport) (args : CallArgs) (world : World)
    (hurl : t._url = none) (hargs : args.url = none) :
    ∃ t2 msg, t.call args world
      = (t2, [], Except.error (PyExc.attributeError msg)) := by
  cases hl : args.language with
  | none =>
    refine ⟨t, "Absent url parameter. Use set_url method", ?_⟩
    simp [HttpTransport.call, hl, hargs, hurl]
  | some l =>
    by_cases hmem : l ∈ t._supported_languages
    · refine ⟨{ t with _language := some l }, "Absent url parameter. Use set_url method", ?_⟩
      simp [HttpTransport.call, hl, hargs, HttpTransport.set_language, hmem, hurl]
    · refine ⟨t, "This language \"" ++ l ++ "\" is not supported", ?_⟩
      simp [HttpTransport.call, hl, hargs, HttpTransport.set_language, hmem]

theorem claim_C4_witness :
    (HttpTransport.init "tkn2" none none)._url = none
      ∧ (CallArgs.mk none none none).url = none
      ∧ ∃ t2 msg,
          HttpTransport.call (HttpTransport.init "tkn2" none none)
              (CallArgs.mk none none none) (fun _ => HttpOutcome.networkError "x")
            = (t2, [], Except.error (PyExc.attributeError msg)) :=
  ⟨rfl, rfl, claim_C4 _ _ _ rfl rfl⟩

/-! ### Claim about URL template substitution (C5) -/

/-- Claim C5: for every well-formed template containing a `%(language)s`
placeholder and every supported language `L`, `prepare_api_url` substitutes
exactly `L` at each placeholder; when the language is falsy (`None` or the
empty string) it substitutes the fixed default language constant. -/
theorem claim_C5 (segs : List Seg) (L : String)
    (hgood : goodTmpl segs = true) (_hph : Seg.lang ∈ segs)
    (hL : L ∈ SUPPORTED_LANGUAGES) :
    prepare_api_url (String.mk (renderTmpl segs)) (some L)
        = .ok (String.mk (substTmpl L.toList segs))
    ∧ prepare_api_url (String.mk (renderTmpl segs)) none
        = .ok (String.mk (substTmpl DEFAULT_LANGUAGE.toList segs))
    ∧ prepare_api_url (String.mk (renderTmpl segs)) (some "")
        = .ok (String.mk (substTmpl DEFAULT_LANGUAGE.toList segs)) := by
  have hL' : L ≠ "" := by
    simp only [SUPPORTED_LANGUAGES, List.mem_cons, List.not_mem_nil, or_false] at hL
    rcases hL with h | h | h | h <;> subst h <;> decide
  refine ⟨?_, ?_, ?_⟩
  · simpa [pyOrStr, hL'] using prepare_api_url_render segs hgood (some L)
  · simpa [pyOrStr] using prepare_api_url_render segs hgood none
  · simpa [pyOrStr] using prepare_api_url_render segs hgood (some "")

theorem claim_C5_witness :
    goodTmpl [Seg.lit 'x', Seg.lit '/', Seg.lang, Seg.lit '/', Seg.lit 't'] = true
      ∧ Seg.lang ∈ [Seg.lit 'x', Seg.lit '/', Seg.lang, Seg.lit '/', Seg.lit 't']
      ∧ "de" ∈ SUPPORTED_LANGUAGES
      ∧ (prepare_api_url
            (String.mk (renderTmpl [Seg.lit 'x', Seg.lit '/', Seg.lang, Seg.lit '/', Seg.lit 't']))
            (some "de")
          = .ok (String.mk
              (substTmpl "de".toList [Seg.lit 'x', Seg.lit '/', Seg.lang, Seg.lit '/', Seg.lit 't']))
        ∧ prepare_api_url
            (String.mk (renderTmpl [Seg.lit 'x', Seg.lit '/', Seg.lang, Seg.lit '/', Seg.lit 't']))
            none
          = .ok (String.mk
              (substTmpl DEFAULT_LANGUAGE.toList
                [Seg.lit 'x', Seg.lit '/', Seg.lang, Seg.lit '/', Seg.lit 't']))
        ∧ prepare_api_url
            (String.mk (renderTmpl [Seg.lit 'x', Seg.lit '/', Seg.lang, Seg.lit '/', Seg.lit 't']))
            (some "")
          = .ok (String.mk
              (substTmpl DEFAULT_LANGUAGE.toList
                [Seg.lit 'x', Seg.lit '/', Seg.lang, Seg.lit '/', Seg.lit 't']))) :=
  ⟨by decide, by decide, by decide,
    claim_C5 [Seg.lit 'x', Seg.lit '/', Seg.lang, Seg.lit '/', Seg.lit 't'] "de"
      (by decide) (by decide) (by decide)⟩

/-! ### Claims about the executor's failure classification (C7, C8) -/

/-- Claim C7, counterexample to the claim as stated: a `304` response —
a status outside 2xx — with a JSON-parsable body does NOT raise `HttpError`;
`response.raise_for_status()` raises only for statuses 400–599, so the parsed
body is returned. -/
theorem claim_C7_counterexample :
    (api_request
        (fun _ => HttpOutcome.response 304 (Body.json (JVal.obj [("ok", JVal.bool true)])))
        "https://api.example.com/x" none none "GET" none false).2
      = Except.ok (JVal.obj [("ok", JVal.bool true)]) := rfl

/-- Claim C7 (amended): for every HTTP exchange that returns a status in
400–599 with a JSON-parsable body, `api_request` raises `HttpError` carrying
that status code, the parsed body and the underlying cause (the body is
parsed before the status check — see C8). -/
theorem claim_C7 (world : World) (url : String) (data : Option FormData)
    (headers : Option Headers) (method : String) (timeout : Option Nat)
    (ssl_verify : Bool) (status : Nat) (content : JVal)
    (hw : world { method := method, url := url,
                  kwargs := prepare_request_data data headers method timeout ssl_verify }
          = HttpOutcome.response status (Body.json content))
    (h4 : 400 ≤ status) (h6 : status < 600) :
    (api_request world url data headers method timeout ssl_verify).2
      = Except.error (PyExc.httpError status content ("HTTP status " ++ toString status)) := by
  simp only [api_request]
  rw [hw]
  simp [h4, h6]

theorem claim_C7_witness :
    ((fun _ => HttpOutcome.response 404 (Body.json (JVal.obj [("detail", JVal.str "not found")]))
        : World)
      { method := "GET", url := "https://api.example.com/err",
        kwargs := prepare_request_data none none "GET" none false }
      = HttpOutcome.response 404 (Body.json (JVal.obj [("detail", JVal.str "not found")])))
    ∧ 400 ≤ 404 ∧ 404 < 600
    ∧ (api_request
          (fun _ => HttpOutcome.response 404 (Body.json (JVal.obj [("detail", JVal.str "not found")])))
          "https://api.example.com/err" none none "GET" none false).2
        = Except.error (PyExc.httpError 404 (JVal.obj [("detail", JVal.str "not found")])
            ("HTTP status " ++ toString 404)) :=
  ⟨rfl, by decide, by decide,
    claim_C7 _ "https://api.example.com/err" none none "GET" none false 404
      (JVal.obj [("detail", JVal.str "not found")]) rfl (by decide) (by decide)⟩

/-- Claim C8: for every HTTP exchange whose response body is not valid JSON,
`api_request` raises `DecodeError` (never `HttpError`), whatever the status
code — `response.json()` runs before `response.raise_for_status()`. -/
theorem claim_C8 (world : World) (url : String) (data : Option FormData)
    (headers : Option Headers) (method : String) (timeout : Option Nat)
    (ssl_verify : Bool) (status : Nat) (raw : String)
    (hw : world { method := method, url := url,
                  kwargs := prepare_request_data data headers method timeout ssl_verify }
          = HttpOutcome.response status (Body.invalid raw)) :
    (api_request world url data headers method timeout ssl_verify).2
      = Except.error (PyExc.decodeError raw) := by
  simp only [api_request]
  rw [hw]

theorem claim_C8_witness :
    ((fun _ => HttpOutcome.response 200 (Body.invalid "not-json") : World)
      { method := "GET", url := "https://api.example.com/raw",
        kwargs := prepare_request_data none none "GET" none false }
      = HttpOutcome.response 200 (Body.invalid "not-json"))
    ∧ (api_request (fun _ => HttpOutcome.response 200 (Body.invalid "not-json"))
          "https://api.example.com/raw" none none "GET" none false).2
        = Except.error (PyExc.decodeError "not-json") :=
  ⟨rfl,
    claim_C8 _ "https://api.example.com/raw" none none "GET" none false 200 "not-json" rfl⟩

/-! ### Claims about the authorization-code flow's state check (C1, C10) -/

/-- Claim C1: for every `OAuthServerAuthorisation` instance holding a stored
state (as set by a preceding `get_authorize_url` call) and every redirect URL
whose query string lacks a `state` parameter or carries a `state` value
different from the stored one, `get_access_token` raises `ApiError`; no
token-endpoint request is issued and the instance state is untouched. -/
theorem claim_C1 (o : OAuthServerAuthorisation) (s0 url : String) (world : World)
    (ho : o.state = some s0)
    (hs : dictGet (parse_qsl (url_query url)) "state" ≠ some s0) :
    o.get_access_token url world
      = (o, [], Except.error (PyExc.apiError "Wrong or absent the state parameter.")) := by
  have hcond : dictGet (parse_qsl (url_query url)) "state" = none
      ∨ dictGet (parse_qsl (url_query url)) "state" = some ""
      ∨ dictGet (parse_qsl (url_query url)) "state" ≠ o.state :=
    Or.inr (Or.inr (by rw [ho]; exact hs))
  simp only [OAuthServerAuthorisation.get_access_token]
  rw [if_pos hcond]

theorem claim_C1_witness :
    (OAuthServerAuthorisation.mk "ci" "cs" "sc" none "en" (some "abc")).state = some "abc"
      ∧ dictGet (parse_qsl (url_query "https://cb/?state=zzz&code=xyz")) "state" ≠ some "abc"
      ∧ (OAuthServerAuthorisation.mk "ci" "cs" "sc" none "en" (some "abc")).get_access_token
            "https://cb/?state=zzz&code=xyz" (fun _ => HttpOutcome.networkError "unused")
          = (OAuthServerAuthorisation.mk "ci" "cs" "sc" none "en" (some "abc"), [],
              Except.error (PyExc.apiError "Wrong or absent the state parameter.")) :=
  ⟨rfl, by decide, claim_C1 _ "abc" _ _ rfl (by decide)⟩

/-- Claim C10: on an instance on which `get_authorize_url` has never been
called (`state` is `None`), `get_access_token` raises `ApiError` for every
input URL — whatever `state`, `error` or `code` parameters it carries — and
no token-endpoint request is issued. -/
theorem claim_C10 (o : OAuthServerAuthorisation) (url : String) (world : World)
    (ho : o.state = none) :
    o.get_access_token url world
      = (o, [], Except.error (PyExc.apiError "Wrong or absent the state parameter.")) := by
  have hcond : dictGet (parse_qsl (url_query url)) "state" = none
      ∨ dictGet (parse_qsl (url_query url)) "state" = some ""
      ∨ dictGet (parse_qsl (url_query url)) "state" ≠ o.state := by
    cases h : dictGet (parse_qsl (url_query url)) "state" with
    | none => exact Or.inl rfl
    | some s => exact Or.inr (Or.inr (by rw [ho]; simp))
  simp only [OAuthServerAuthorisation.get_access_token]
  rw [if_pos hcond]

theorem claim_C10_witness :
    (OAuthServerAuthorisation.init "ci" "cs" "sc" none none).state = none
      ∧ (OAuthServerAuthorisation.init "ci" "cs" "sc" none none).get_access_token
            "https://cb/?error=access_denied&code=xyz&state=zzz"
            (fun _ => HttpOutcome.networkError "unused")
          = (OAuthServerAuthorisation.init "ci" "cs" "sc" none none, [],
              Except.error (PyExc.apiError "Wrong or absent the state parameter.")) :=
  ⟨rfl, claim_C10 _ "https://cb/?error=access_denied&code=xyz&state=zzz" _ rfl⟩

/-! ### Claim about the authorization-code token request (C6) -/

/-- `TOKEN_URL` viewed as a well-formed template. -/
def tokenSegs : List Seg :=
  "https://api.admitad.com/".toList.map Seg.lit
    ++ Seg.lang :: "/token/".toList.map Seg.lit

theorem TOKEN_URL_eq : TOKEN_URL = String.mk (renderTmpl tokenSegs) := by decide

theorem goodTmpl_tokenSegs : goodTmpl tokenSegs = true := by decide

/-- `prepare_api_url` on the token endpoint never fails, whatever the
language string. -/
theorem prepare_TOKEN_ok (l : String) :
    prepare_api_url TOKEN_URL (some l)
      = .ok (String.mk (substTmpl (pyOrStr (some l) DEFAULT_LANGUAGE).toList tokenSegs)) := by
  rw [TOKEN_URL_eq, prepare_api_url_render tokenSegs goodTmpl_tokenSegs (some l)]

/-- Claim C6: when `get_access_token` passes the state, error and code
checks, it issues exactly one POST to the language-qualified token endpoint
whose body is `{grant_type: "authorization_code", client_id, client_secret,
code, redirect_uri}` with a form-urlencoded content-type header and no
(Basic) `Authorization` header — while both the password and the
client-credentials grant send a Basic `Authorization` header. -/
theorem claim_C6 (o : OAuthServerAuthorisation) (s0 url code : String) (world : World)
    (ho : o.state = some s0) (hs0 : s0 ≠ "")
    (hstate : dictGet (parse_qsl (url_query url)) "state" = some s0)
    (herr : dictGet (parse_qsl (url_query url)) "error" = none)
    (hcode : dictGet (parse_qsl (url_query url)) "code" = some code) :
    ∃ u, prepare_api_url TOKEN_URL (some o.language) = .ok u
      ∧ (o.get_access_token url world).2.1
          = [{ method := "POST", url := u,
               kwargs := prepare_request_data (some (token_request_params o code))
                           (some token_request_headers) "POST" none false }]
      ∧ (prepare_request_data (some (token_request_params o code))
           (some token_request_headers) "POST" none false).data
          = some (token_request_params o code)
      ∧ (prepare_request_data (some (token_request_params o code))
           (some token_request_headers) "POST" none false).headers
          = token_request_headers
      ∧ dictGet token_request_headers "Content-Type"
          = some "application/x-www-form-urlencoded"
      ∧ dictGet token_request_headers "Authorization" = none
      ∧ (∀ (w2 : World) (cid cs un pw sc : String) (lg : Option String), ∃ r,
          (oauth_password_authorization w2 cid cs un pw sc lg).1 = [r]
          ∧ dictGet r.kwargs.headers "Authorization"
              = some ("Basic " ++ b64encode (cid ++ ":" ++ cs)))
      ∧ (∀ (w2 : World) (cid cs sc : String) (lg : Option String), ∃ r,
          (oauth_client_authorization w2 cid cs sc lg).1 = [r]
          ∧ dictGet r.kwargs.headers "Authorization"
              = some ("Basic " ++ b64encode (cid ++ ":" ++ cs))) := by
  have hcond : ¬ (dictGet (parse_qsl (url_query url)) "state" = none
      ∨ dictGet (parse_qsl (url_query url)) "state" = some ""
      ∨ dictGet (parse_qsl (url_query url)) "state" ≠ o.state) := by
    rw [hstate, ho]
    simp [hs0]
  refine ⟨_, prepare_TOKEN_ok o.language, ?_,
    by simp [prepare_request_data], by simp [prepare_request_data],
    by decide, by decide, ?_, ?_⟩
  · simp only [OAuthServerAuthorisation.get_access_token]
    rw [if_neg hcond]
    simp [herr, hcode, prepare_TOKEN_ok, api_post_request, api_request]
  · intro w2 cid cs un pw sc lg
    simp only [oauth_password_authorization, prepare_TOKEN_ok,
      api_post_request, api_request]
    refine ⟨_, rfl, ?_⟩
    simp [dictGet]
  · intro w2 cid cs sc lg
    simp only [oauth_client_authorization, prepare_TOKEN_ok,
      api_post_request, api_request]
    refine ⟨_, rfl, ?_⟩
    simp [dictGet]

theorem claim_C6_witness :
    (OAuthServerAuthorisation.mk "ci" "cs" "sc" (some "https://cb/") "en" (some "st1")).state
        = some "st1"
      ∧ ("st1" : String) ≠ ""
      ∧ dictGet (parse_qsl (url_query "https://cb/?state=st1&code=c0de")) "state" = some "st1"
      ∧ dictGet (parse_qsl (url_query "https://cb/?state=st1&code=c0de")) "error" = none
      ∧ dictGet (parse_qsl (url_query "https://cb/?state=st1&code=c0de")) "code" = some "c0de"
      ∧ ∃ u, prepare_api_url TOKEN_URL
            (some (OAuthServerAuthorisation.mk "ci" "cs" "sc" (some "https://cb/") "en"
              (some "st1")).language) = .ok u
          ∧ ((OAuthServerAuthorisation.mk "ci" "cs" "sc" (some "https://cb/") "en"
                (some "st1")).get_access_token "https://cb/?state=st1&code=c0de"
                (fun _ => HttpOutcome.networkError "unused")).2.1
              = [{ method := "POST", url := u,
                   kwargs := prepare_request_data
                     (some (token_request_params
                       (OAuthServerAuthorisation.mk "ci" "cs" "sc" (some "https://cb/") "en"
                         (some "st1")) "c0de"))
                     (some token_request_headers) "POST" none false }]
          ∧ (prepare_request_data
               (some (token_request_params
                 (OAuthServerAuthorisation.mk "ci" "cs" "sc" (some "https://cb/") "en"
                   (some "st1")) "c0de"))
               (some token_request_headers) "POST" none false).data
              = some (token_request_params
                  (OAuthServerAuthorisation.mk "ci" "cs" "sc" (some "https://cb/") "en"
                    (some "st1")) "c0de")
          ∧ (prepare_request_data
               (some (token_request_params
                 (OAuthServerAuthorisation.mk "ci" "cs" "sc" (some "https://cb/") "en"
                   (some "st1")) "c0de"))
               (some token_request_headers) "POST" none false).headers
              = token_request_headers
          ∧ dictGet token_request_headers "Content-Type"
              = some "application/x-www-form-urlencoded"
          ∧ dictGet token_request_headers "Authorization" = none
          ∧ (∀ (w2 : World) (cid cs un pw sc : String) (lg : Option String), ∃ r,
              (oauth_password_authorization w2 cid cs un pw sc lg).1 = [r]
              ∧ dictGet r.kwargs.headers "Authorization"
                  = some ("Basic " ++ b64encode (cid ++ ":" ++ cs)))
          ∧ (∀ (w2 : World) (cid cs sc : String) (lg : Option String), ∃ r,
              (oauth_client_authorization w2 cid cs sc lg).1 = [r]
              ∧ dictGet r.kwargs.headers "Authorization"
                  = some ("Basic " ++ b64encode (cid ++ ":" ++ cs))) :=
  ⟨rfl, by decide, by decide, by decide, by decide,
    claim_C6 (OAuthServerAuthorisation.mk "ci" "cs" "sc" (some "https://cb/") "en" (some "st1"))
      "st1" "https://cb/?state=st1&code=c0de" "c0de"
      (fun _ => HttpOutcome.networkError "unused")
      rfl (by decide) (by decide) (by decide) (by decide)⟩

/-! ### Claim about `set_url` and the stored language (C9) -/

/-- Claim C9: `set_url(url)` with no language argument always stores the URL
with the fixed default language substituted, even when a different supported
language was previously stored via `set_language`; the stored language is
consulted only when the URL is supplied through the option bag of the call
operation, which then issues the request against the stored-language
substitution. -/
theorem claim_C9 (t : HttpTransport) (segs : List Seg) (l : String) (world : World)
    (hgood : goodTmpl segs = true)
    (hsupl : t._supported_languages = ["ru", "en", "de", "pl"])
    (hlang : t._language = some l)
    (hl : l ∈ (["ru", "en", "de", "pl"] : List String))
    (hne : substTmpl l.toList segs ≠ []) :
    t.set_url (String.mk (renderTmpl segs)) none
        = ({ t with _url := some (String.mk (substTmpl DEFAULT_LANGUAGE.toList segs)) }, none)
    ∧ (t.call { language := none, url := some (String.mk (renderTmpl segs)),
                handler := none } world).2.1
        = [{ method := t._method, url := String.mk (substTmpl l.toList segs),
             kwargs := prepare_request_data t._data (some t._headers) t._method none false }] := by
  have hl' : l ≠ "" := by
    simp only [List.mem_cons, List.not_mem_nil, or_false] at hl
    rcases hl with h | h | h | h <;> subst h <;> decide
  have hne' : String.mk (substTmpl l.data segs) ≠ "" := by
    intro h
    exact hne (by simpa using congrArg String.data h)
  constructor
  · simp [HttpTransport.set_url, prepare_api_url_render segs hgood none, pyOrStr]
  · simp [HttpTransport.call, HttpTransport.set_url, HttpTransport.set_language,
      hlang, hsupl, hl, hl', hne', prepare_api_url_render segs hgood (some l),
      pyOrStr, api_request]

theorem claim_C9_witness :
    goodTmpl [Seg.lit 'a', Seg.lit '/', Seg.lang] = true
      ∧ ((HttpTransport.init "tk" none none).set_language "de").1._supported_languages
          = ["ru", "en", "de", "pl"]
      ∧ ((HttpTransport.init "tk" none none).set_language "de").1._language = some "de"
      ∧ "de" ∈ (["ru", "en", "de", "pl"] : List String)
      ∧ substTmpl "de".toList [Seg.lit 'a', Seg.lit '/', Seg.lang] ≠ []
      ∧ (((HttpTransport.init "tk" none none).set_language "de").1.set_url
            (String.mk (renderTmpl [Seg.lit 'a', Seg.lit '/', Seg.lang])) none
          = ({ ((HttpTransport.init "tk" none none).set_language "de").1 with
                _url := some (String.mk
                  (substTmpl DEFAULT_LANGUAGE.toList [Seg.lit 'a', Seg.lit '/', Seg.lang])) },
              none)
        ∧ (((HttpTransport.init "tk" none none).set_language "de").1.call
              { language := none,
                url := some (String.mk (renderTmpl [Seg.lit 'a', Seg.lit '/', Seg.lang])),
                handler := none }
              (fun _ => HttpOutcome.networkError "unused")).2.1
            = [{ method := ((HttpTransport.init "tk" none none).set_language "de").1._method,
                 url := String.mk (substTmpl "de".toList [Seg.lit 'a', Seg.lit '/', Seg.lang]),
                 kwargs := prepare_request_data
                   ((HttpTransport.init "tk" none none).set_language "de").1._data
                   (some ((HttpTransport.init "tk" none none).set_language "de").1._headers)
                   ((HttpTransport.init "tk" none none).set_language "de").1._method
                   none false }]) :=
  ⟨by decide, rfl, rfl, by decide, by decide,
    claim_C9 ((HttpTransport.init "tk" none none).set_language "de").1
      [Seg.lit 'a', Seg.lit '/', Seg.lang] "de"
      (fun _ => HttpOutcome.networkError "unused")
      (by decide) rfl rfl (by decide) (by decide)⟩

end Pyadmitad
